import Mathlib

/-!
Verification of the cross-thread object lifecycle and interpreter-affinity
core of the ballistica engine: reference wrappers (PythonRef), the
weak-reference scheme for engine objects (widgets), per-thread event loops,
context capture/restore (ScopedSetContext), deferred call scheduling
(pushcall) and one-shot timers (apptimer/displaytimer).

Definitions are a shallow embedding of the C++ sources. Machine pointers
become optional object ids; the Python refcount world becomes an explicit
count map; thrown C++ exceptions become an Except error channel.
-/

set_option autoImplicit false

namespace Ballistica

/-! ### Error taxonomy -/

/-- Python exception categories used at the native boundary
(subset of the PyExcType enum that the embedded sources mention). -/
inductive PyExcType where
  | kRuntime
  | kValue
  | kContext
  | kNotFound
  | kWidgetNotFound
  deriving DecidableEq, Repr

/-- ballistica::Exception carrying a message and a Python exception type. -/
structure Exception where
  message : String
  pythonType : PyExcType
  deriving DecidableEq, Repr

/-! ### PythonRef: managed Python object references

The header python_ref.h is in the sources; the member bodies live in
python_ref.cc which is not, so the body-level definitions below are
modelled from the in-repo header doc comments and the spec (section 4.1).
A PyObject pointer is an optional object id; the interpreter refcount
state is a count map over object ids. -/

abbrev ObjId := Nat

/-- Python-side reference count for each object id. -/
abbrev RefWorld := ObjId → Nat

/-- ReferenceBehavior enum from python_ref.h. -/
inductive ReferenceBehavior where
  | kSteal
  | kStealSoft
  | kAcquire
  | kAcquireSoft
  deriving DecidableEq, Repr

/-- A PythonRef value: the obj_ field (null pointer is none). -/
structure PythonRef where
  obj : Option ObjId
  deriving DecidableEq, Repr

/-- Get() from python_ref.h: return the underlying pointer. -/
def PythonRef.Get (r : PythonRef) : Option ObjId := r.obj

/-- Exists() from python_ref.h: whether we point to a PyObject. -/
def PythonRef.Exists (r : PythonRef) : Bool := r.obj.isSome

/-- Py_INCREF of one object id. -/
def incrCount (w : RefWorld) (t : ObjId) : RefWorld :=
  fun o => if o = t then w o + 1 else w o

/-- Py_DECREF of one object id. -/
def decrCount (w : RefWorld) (t : ObjId) : RefWorld :=
  fun o => if o = t then w o - 1 else w o

/-- Modelled from the spec: PythonRef::Release (body in the absent
python_ref.cc); per the header and spec, decrement and clear to empty when
a reference is held, no-op when already empty. -/
def PythonRef.Release (w : RefWorld) (r : PythonRef) : RefWorld × PythonRef :=
  match r.obj with
  | some t => (decrCount w t, ⟨none⟩)
  | none => (w, r)

/-- Modelled from the spec: the non-null path of PythonRef::Acquire:
increment the target count, release any previously held reference, and
point at the target. -/
def PythonRef.AcquireSome (w : RefWorld) (r : PythonRef) (t : ObjId) :
    RefWorld × PythonRef :=
  ((PythonRef.Release (incrCount w t) r).1, ⟨some t⟩)

/-- The InvalidReferenceError of the spec taxonomy: acquiring or stealing a
null where an object is required. -/
def invalidReferenceError : Exception :=
  ⟨"InvalidReferenceError: null PyObject", .kRuntime⟩

/-- Modelled from the spec: PythonRef::Acquire throws if nullptr is passed
(header doc), otherwise takes a new reference. -/
def PythonRef.Acquire (w : RefWorld) (r : PythonRef) (obj : Option ObjId) :
    Except Exception (RefWorld × PythonRef) :=
  match obj with
  | none => .error invalidReferenceError
  | some t => .ok (PythonRef.AcquireSome w r t)

/-- Modelled from the spec: PythonRef::AcquireSoft sets to null reference
if nullptr is passed (header doc), otherwise acquires. -/
def PythonRef.AcquireSoft (w : RefWorld) (r : PythonRef) (obj : Option ObjId) :
    RefWorld × PythonRef :=
  match obj with
  | none => PythonRef.Release w r
  | some t => PythonRef.AcquireSome w r t

/-- Modelled from the spec: the non-null path of PythonRef::Steal: take
over the reference the caller already held (net count unchanged), after
releasing any reference of our own. -/
def PythonRef.StealSome (w : RefWorld) (r : PythonRef) (t : ObjId) :
    RefWorld × PythonRef :=
  ((PythonRef.Release w r).1, ⟨some t⟩)

/-- Modelled from the spec: PythonRef::Steal throws if nullptr is passed
(header doc), otherwise steals. -/
def PythonRef.Steal (w : RefWorld) (r : PythonRef) (obj : Option ObjId) :
    Except Exception (RefWorld × PythonRef) :=
  match obj with
  | none => .error invalidReferenceError
  | some t => .ok (PythonRef.StealSome w r t)

/-- Modelled from the spec: PythonRef::StealSoft sets to null reference if
nullptr is passed (header doc), otherwise steals. -/
def PythonRef.StealSoft (w : RefWorld) (r : PythonRef) (obj : Option ObjId) :
    RefWorld × PythonRef :=
  match obj with
  | none => PythonRef.Release w r
  | some t => PythonRef.StealSome w r t

/-- The constructor PythonRef(obj, behavior) from python_ref.h: dispatch on
the ReferenceBehavior starting from an unreferenced state. -/
def PythonRef.create (w : RefWorld) (obj : Option ObjId)
    (behavior : ReferenceBehavior) : Except Exception (RefWorld × PythonRef) :=
  match behavior with
  | .kSteal => PythonRef.Steal w ⟨none⟩ obj
  | .kStealSoft => .ok (PythonRef.StealSoft w ⟨none⟩ obj)
  | .kAcquire => PythonRef.Acquire w ⟨none⟩ obj
  | .kAcquireSoft => .ok (PythonRef.AcquireSoft w ⟨none⟩ obj)

/-- operator= from the in-repo header python_ref.h: if other.Exists then
Acquire(other.Get()) else Release(). -/
def PythonRef.assign (w : RefWorld) (self other : PythonRef) :
    RefWorld × PythonRef :=
  match other.Get with
  | some t => PythonRef.AcquireSome w self t
  | none => PythonRef.Release w self

/-! ### ContextRef and ScopedSetContext

The context.h/.cc sources are absent; callers in base.cc,
python_methods_app.cc and base_python.cc are present. The scope mechanism
below is modelled from the spec (section 4.3): construction saves the
ambient context and installs the new one; destruction restores the saved
value on every exit path. -/

abbrev ContextTarget := Nat

/-- A ContextRef: token naming the active simulation context; none is the
explicit empty context, i.e. ContextRef(nullptr). -/
structure ContextRef where
  target : Option ContextTarget
  deriving DecidableEq, Repr

/-- The explicit empty context ContextRef(nullptr). -/
def ContextRef.empty : ContextRef := ⟨none⟩

/-- The thread-ambient state relevant to context scoping: the current
context of the logic thread. -/
structure CtxThread where
  current : ContextRef
  deriving DecidableEq, Repr

/-- Modelled from the spec: the saved state held by a live ScopedSetContext
instance (the previously-ambient context). -/
structure ScopedSetContext where
  contextPrev : ContextRef
  deriving DecidableEq, Repr

/-- Modelled from the spec: ScopedSetContext construction saves the ambient
context and installs the new one. -/
def ScopedSetContext.enter (st : CtxThread) (c : ContextRef) :
    ScopedSetContext × CtxThread :=
  (⟨st.current⟩, ⟨c⟩)

/-- Modelled from the spec: ScopedSetContext destruction restores the saved
context, discarding whatever the body left ambient. -/
def ScopedSetContext.restore (s : ScopedSetContext) (_st : CtxThread) : CtxThread :=
  ⟨s.contextPrev⟩

/-- Programs over the ambient context: explicit context sets, failures,
sequencing and ScopedSetContext scopes (nestable to arbitrary depth). -/
inductive CtxProg where
  | skip
  | setContext (c : ContextRef)
  | raiseErr
  | seq (p q : CtxProg)
  | scopedSet (c : ContextRef) (p : CtxProg)
  deriving DecidableEq, Repr

/-- Run a context program: returns the resulting ambient context and
whether it completed without error. An error skips the remainder of a seq
(exception propagation) but scope destructors still run (RAII). -/
def runCtx : CtxProg → CtxThread → CtxThread × Bool
  | .skip, st => (st, true)
  | .setContext c, _st => (⟨c⟩, true)
  | .raiseErr, st => (st, false)
  | .seq p q, st =>
    let r1 := runCtx p st
    if r1.2 then runCtx q r1.1 else (r1.1, false)
  | .scopedSet c p, st =>
    let sc := ScopedSetContext.enter st c
    let r1 := runCtx p sc.2
    (ScopedSetContext.restore sc.1 r1.1, r1.2)

/-! ### EventLoop

The event_loop.h/.cc sources are absent; callers are present throughout.
Modelled from the spec (section 4.2): a FIFO queue of deferred callables
owned by one thread; PushCall appends; the owning thread drains the queue
oldest first, each callable run to completion (one atomic log entry)
before the next begins. -/

abbrev ThreadId := Nat
abbrev CallId := Nat

/-- Modelled from the spec: an EventLoop is an owning thread plus a FIFO
queue of deferred callables. -/
structure EventLoop where
  owner : ThreadId
  queue : List CallId
  deriving DecidableEq, Repr

/-- Modelled from the spec: EventLoop::PushCall enqueues a callable at the
back of the queue. -/
def EventLoop.PushCall (l : EventLoop) (c : CallId) : EventLoop :=
  ⟨l.owner, l.queue ++ [c]⟩

/-- Push a sequence of callables (submission order = list order). -/
def EventLoop.pushAll (l : EventLoop) (cs : List CallId) : EventLoop :=
  cs.foldl EventLoop.PushCall l

/-- Execution log of draining a queue on a given thread: the callables in
queue order, each paired with the thread that ran it, each entry an atomic
run-to-completion execution. -/
def drainQueue (owner : ThreadId) : List CallId → List (ThreadId × CallId)
  | [] => []
  | c :: rest => (owner, c) :: drainQueue owner rest

/-- Modelled from the spec: the owning thread drains the loop, executing
queued callables oldest first. -/
def EventLoop.drain (l : EventLoop) : List (ThreadId × CallId) :=
  drainQueue l.owner l.queue

/-! ### Widgets and weak references

PythonClassWidget accessors are in the sources (python_class_widget.cc);
the Object::WeakRef core they use (foundation/object.h) is absent and is
modelled from the spec (sections 3 and 4.1): a weak reference resolves to
the live object or to none, never dangles, and never extends lifetime. -/

abbrev WidgetId := Nat

/-- The set of currently live widgets. -/
structure UiWorld where
  live : List WidgetId
  deriving DecidableEq, Repr

/-- Destroy a widget (performed by whichever thread owns it): it is no
longer live. -/
def UiWorld.destroyWidget (world : UiWorld) (t : WidgetId) : UiWorld :=
  ⟨world.live.filter (fun x => x ≠ t)⟩

/-- An Object::WeakRef handle to a widget: remembers which object it was
pointed at (none for an empty ref). -/
structure WeakRefWidget where
  target : Option WidgetId
  deriving DecidableEq, Repr

/-- Modelled from the spec: Object::WeakRef Get resolves to the object if
it is still alive and to none otherwise. -/
def WeakRefWidget.Get (world : UiWorld) (r : WeakRefWidget) : Option WidgetId :=
  match r.target with
  | none => none
  | some t => if t ∈ world.live then some t else none

/-- The exception thrown by PythonClassWidget::GetWidget on a dead ref. -/
def invalidWidgetError : Exception := ⟨"Invalid widget", .kRuntime⟩

/-- The WidgetNotFound exception thrown by widget methods on a dead ref. -/
def widgetNotFoundError : Exception :=
  ⟨"Widget not found", .kWidgetNotFound⟩

/-- PythonClassWidget::Exists from python_class_widget.cc: resolve the weak
ref; true when it yields a widget, false otherwise. -/
def PythonClassWidget.Exists (world : UiWorld) (r : WeakRefWidget) : Bool :=
  (WeakRefWidget.Get world r).isSome

/-- PythonClassWidget::GetWidget from python_class_widget.cc: resolve the
weak ref; throw on a dead ref. -/
def PythonClassWidget.GetWidget (world : UiWorld) (r : WeakRefWidget) :
    Except Exception WidgetId :=
  match WeakRefWidget.Get world r with
  | none => .error invalidWidgetError
  | some t => .ok t

/-- PythonClassWidget::Activate from python_class_widget.cc: resolve the
weak ref; throw WidgetNotFound on a dead ref, act on the widget otherwise. -/
def PythonClassWidget.Activate (world : UiWorld) (r : WeakRefWidget) :
    Except Exception Unit :=
  match WeakRefWidget.Get world r with
  | none => .error widgetNotFoundError
  | some _ => .ok ()

/-- The exception thrown by PythonClassWidget::tp_new off the logic
thread. -/
def wrongThreadError : Exception :=
  ⟨"bauiv1.Widget objects must only be created in the logic thread", .kRuntime⟩

/-- PythonClassWidget::tp_new from python_class_widget.cc: constructing a
Widget handle off the logic thread throws and yields no object; on the
logic thread it yields a fresh empty weak ref. -/
def PythonClassWidget.tp_new (currentThread logicThread : ThreadId) :
    Except Exception WeakRefWidget :=
  if currentThread ≠ logicThread then .error wrongThreadError
  else .ok ⟨none⟩

/-! ### One-shot timers (apptimer / displaytimer)

PyAppTimer and PyDisplayTimer are in the sources
(python_methods_app.cc). Logic::NewAppTimer and Logic::NewDisplayTimer are
not; they are modelled from the spec (section 4.2): each schedules a timer
measured against its named time base. -/

/-- The two loop-category time bases of the spec: app-time (monotonic,
pauses while suspended) and display-time (smoothed per-frame value). -/
inductive TimeBase where
  | appTime
  | displayTime
  deriving DecidableEq, Repr

/-- A timer registered with the logic thread. -/
structure ScheduledTimer where
  timeBase : TimeBase
  delayMillisecs : Int
  repeating : Bool
  call : CallId
  deriving DecidableEq, Repr

/-- Modelled from the spec: Logic::NewAppTimer schedules a timer measured
against the app-time base. -/
def Logic.NewAppTimer (delay : Int) (repeating : Bool) (call : CallId) :
    ScheduledTimer :=
  ⟨.appTime, delay, repeating, call⟩

/-- Modelled from the spec: Logic::NewDisplayTimer schedules a timer
measured against the display-time base. -/
def Logic.NewDisplayTimer (delay : Int) (repeating : Bool) (call : CallId) :
    ScheduledTimer :=
  ⟨.displayTime, delay, repeating, call⟩

/-- static_cast to millisecs_t of (length * 1000.0): truncation toward
zero, with the double modelled as a rational. -/
def castToMillisecs (seconds : ℚ) : Int :=
  let x := seconds * 1000
  if 0 ≤ x then x.floor else -((-x).floor)

/-- Environment of a timer-registration call: the calling thread, the
ambient context target and which contexts allow default timer types. -/
structure TimerCallEnv where
  inLogicThread : Bool
  currentContextTarget : Option ContextTarget
  contextAllowsDefaultTimerTypes : ContextTarget → Bool

/-- ContextError thrown when the ambient context forbids default timers. -/
def contextDisallowsTimersError : Exception :=
  ⟨"The current context does not allow creation of default timer types.",
   .kRuntime⟩

/-- The fatal precondition failure of BA_PRECONDITION(InLogicThread()). -/
def preconditionFailedError : Exception :=
  ⟨"Precondition failed: InLogicThread", .kRuntime⟩

/-- BasePython::EnsureContextAllowsDefaultTimerTypes from base_python.cc:
with no current context do nothing; with a context, throw unless it allows
default timer types. -/
def EnsureContextAllowsDefaultTimerTypes (env : TimerCallEnv) :
    Except Exception Unit :=
  match env.currentContextTarget with
  | none => .ok ()
  | some ctx =>
    if env.contextAllowsDefaultTimerTypes ctx then .ok ()
    else .error contextDisallowsTimersError

/-- The ValueError thrown for a negative timer length. -/
def timerLengthError : Exception := ⟨"Timer length cannot be < 0.", .kValue⟩

/-- PyAppTimer from python_methods_app.cc: precondition InLogicThread,
context check, negative-length check, then (as written in this repository)
registration via Logic::NewDisplayTimer with repeat false. -/
def PyAppTimer (env : TimerCallEnv) (length : ℚ) (call : CallId) :
    Except Exception ScheduledTimer :=
  if env.inLogicThread = false then .error preconditionFailedError
  else
    match EnsureContextAllowsDefaultTimerTypes env with
    | .error e => .error e
    | .ok _ =>
      if length < 0 then .error timerLengthError
      else .ok (Logic.NewDisplayTimer (castToMillisecs length) false call)

/-- PyDisplayTimer from python_methods_app.cc: precondition InLogicThread,
context check, negative-length check, then (as written in this repository)
registration via Logic::NewAppTimer with repeat false. -/
def PyDisplayTimer (env : TimerCallEnv) (length : ℚ) (call : CallId) :
    Except Exception ScheduledTimer :=
  if env.inLogicThread = false then .error preconditionFailedError
  else
    match EnsureContextAllowsDefaultTimerTypes env with
    | .error e => .error e
    | .ok _ =>
      if length < 0 then .error timerLengthError
      else .ok (Logic.NewAppTimer (castToMillisecs length) false call)

/-! ### Deferred call submission (pushcall) -/

/-- The three shapes of work PyPushCall ships to the logic thread; these
are exactly the data the source lambdas capture. A raw call carries only
the callable; a from-other-thread call carries the callable and the
use-foreground-context flag (no context value); a same-thread call is a
PythonContextCall, which captures the ambient context at schedule time
(PythonContextCall construction is absent from the sources and modelled
from the spec, section 4.3). -/
inductive LogicCall where
  | rawCall (call : CallId)
  | otherThreadCall (call : CallId) (useFgContext : Bool)
  | contextCall (call : CallId) (captured : ContextRef)
  deriving DecidableEq, Repr

/-- Submission-time environment of a pushcall: calling thread, ambient
context, what the active app mode considers foreground right now, and the
logic-thread queue. -/
structure PushCallEnv where
  currentThreadIsLogic : Bool
  currentContext : ContextRef
  foregroundContext : ContextRef
  logicQueue : List LogicCall
  deriving DecidableEq, Repr

/-- Enqueue one call on the logic-thread queue. -/
def PushCallEnv.push (env : PushCallEnv) (c : LogicCall) : PushCallEnv :=
  { env with logicQueue := env.logicQueue ++ [c] }

/-- The exception thrown by pushcall in default mode off the logic
thread. -/
def mustUseFromOtherThreadError : Exception :=
  ⟨"You must use from_other_thread mode.", .kRuntime⟩

/-- PyPushCall from python_methods_app.cc: raw mode enqueues the bare
callable; from_other_thread mode enqueues the callable plus the
use-foreground-context flag (the warning for misuse on the logic thread
only logs); default mode throws off the logic thread and otherwise
schedules a context-capturing call. -/
def PyPushCall (env : PushCallEnv) (call : CallId)
    (fromOtherThread _suppressWarning otherThreadUseFgContext raw : Bool) :
    Except Exception PushCallEnv :=
  if raw then .ok (env.push (.rawCall call))
  else if fromOtherThread then
    .ok (env.push (.otherThreadCall call otherThreadUseFgContext))
  else if env.currentThreadIsLogic = false then
    .error mustUseFromOtherThreadError
  else .ok (env.push (.contextCall call env.currentContext))

/-- Execution-time environment on the logic thread: what the active app
mode considers foreground at that moment, and the ambient context. -/
structure ExecEnv where
  foregroundContext : ContextRef
  ambientContext : ContextRef
  deriving DecidableEq, Repr

/-- The context installed around the callable when the logic thread runs a
queued call, per the source lambdas in python_methods_app.cc: raw calls do
no set/restore (they see the ambient context); from-other-thread calls
install the foreground context resolved now when the flag is set, else the
empty ContextRef(nullptr); context calls install their captured context. -/
def installedContext (ex : ExecEnv) : LogicCall → ContextRef
  | .rawCall _ => ex.ambientContext
  | .otherThreadCall _ useFg =>
    if useFg then ex.foregroundContext else ContextRef.empty
  | .contextCall _ captured => captured

/-- A concrete timer environment whose preconditions all pass. -/
def timerEnvOk : TimerCallEnv := ⟨true, none, fun _ => true⟩

/-- Whether an Except result is a success. -/
def exceptIsOk {α : Type} : Except Exception α → Bool
  | .ok _ => true
  | .error _ => false

/-! ### Helper lemmas -/

theorem pushAll_cons (l : EventLoop) (c : CallId) (rest : List CallId) :
    l.pushAll (c :: rest) = (l.PushCall c).pushAll rest := rfl

theorem pushAll_owner_queue (cs : List CallId) :
    ∀ l : EventLoop, (l.pushAll cs).owner = l.owner
      ∧ (l.pushAll cs).queue = l.queue ++ cs := by
  induction cs with
  | nil => intro l; simp [EventLoop.pushAll]
  | cons c rest ih =>
    intro l
    have h := ih (l.PushCall c)
    rw [pushAll_cons]
    refine ⟨h.1.trans rfl, h.2.trans ?_⟩
    simp [EventLoop.PushCall]

theorem drainQueue_map_snd (o : ThreadId) (q : List CallId) :
    (drainQueue o q).map Prod.snd = q := by
  induction q with
  | nil => rfl
  | cons c rest ih => simp [drainQueue, ih]

theorem drainQueue_map_fst (o : ThreadId) (q : List CallId) :
    (drainQueue o q).map Prod.fst = q.map (fun _ => o) := by
  induction q with
  | nil => rfl
  | cons c rest ih => simp [drainQueue, ih]

theorem assign_eval (w : RefWorld) (so oo : Option ObjId) :
    PythonRef.assign w ⟨so⟩ ⟨oo⟩
      = match oo, so with
        | some t, some s => (decrCount (incrCount w t) s, ⟨some t⟩)
        | some t, none => (incrCount w t, ⟨some t⟩)
        | none, some s => (decrCount w s, ⟨none⟩)
        | none, none => (w, ⟨none⟩) := by
  cases oo <;> cases so <;> rfl

/-! ### Claim theorems -/

/-- C1: the claim says apptimer schedules on the app-time base and
displaytimer on the display-time base. In this repository the bodies are
swapped relative to their own docstrings: PyAppTimer registers via
Logic::NewDisplayTimer and PyDisplayTimer via Logic::NewAppTimer. This
theorem evaluates both at the failing input (delay 1.0 second, all
preconditions passing): apptimer yields a display-time-base timer and
displaytimer an app-time-base timer. -/
theorem apptimer_displaytimer_bases_swapped :
    PyAppTimer timerEnvOk 1 7 = .ok ⟨.displayTime, 1000, false, 7⟩
  ∧ PyDisplayTimer timerEnvOk 1 7 = .ok ⟨.appTime, 1000, false, 7⟩ := by
  have hcast : castToMillisecs 1 = 1000 := by
    norm_num [castToMillisecs, Rat.floor]
  constructor <;>
    norm_num [PyAppTimer, PyDisplayTimer, timerEnvOk,
      EnsureContextAllowsDefaultTimerTypes, hcast, Logic.NewDisplayTimer,
      Logic.NewAppTimer]

/-- C2: a weak reference to a widget resolves to the widget itself while
it is alive; after the widget is destroyed, Get resolves to none,
Widget.exists returns false, GetWidget fails with an invalid-widget error
and widget methods fail with WidgetNotFound; and in every world the
resolution is either none or the original widget, never anything else. -/
theorem weakref_no_dangling (world : UiWorld) (r : WeakRefWidget)
    (t : WidgetId) (h : r.target = some t) :
    (t ∈ world.live → WeakRefWidget.Get world r = some t)
  ∧ WeakRefWidget.Get (world.destroyWidget t) r = none
  ∧ PythonClassWidget.Exists (world.destroyWidget t) r = false
  ∧ PythonClassWidget.GetWidget (world.destroyWidget t) r
      = .error invalidWidgetError
  ∧ PythonClassWidget.Activate (world.destroyWidget t) r
      = .error widgetNotFoundError
  ∧ ∀ anyWorld : UiWorld, WeakRefWidget.Get anyWorld r = none
      ∨ WeakRefWidget.Get anyWorld r = some t := by
  have hdead : WeakRefWidget.Get (world.destroyWidget t) r = none := by
    simp [WeakRefWidget.Get, h, UiWorld.destroyWidget]
  refine ⟨?_, hdead, ?_, ?_, ?_, ?_⟩
  · intro hmem
    simp [WeakRefWidget.Get, h, hmem]
  · simp [PythonClassWidget.Exists, hdead]
  · simp [PythonClassWidget.GetWidget, hdead]
  · simp [PythonClassWidget.Activate, hdead]
  · intro anyWorld
    by_cases hmem : t ∈ anyWorld.live
    · right; simp [WeakRefWidget.Get, h, hmem]
    · left; simp [WeakRefWidget.Get, h, hmem]

/-- C2 witness: a concrete widget 5, alive in world with live list
containing 5, destroyed; the weak ref observes gone afterwards. -/
theorem weakref_no_dangling_witness :
    WeakRefWidget.Get (UiWorld.destroyWidget ⟨[5]⟩ 5) ⟨some 5⟩ = none
  ∧ PythonClassWidget.Exists (UiWorld.destroyWidget ⟨[5]⟩ 5) ⟨some 5⟩
      = false := by
  have h := weakref_no_dangling ⟨[5]⟩ ⟨some 5⟩ 5 rfl
  exact ⟨h.2.1, h.2.2.1⟩

/-- C3: for every sequence of callables pushed to one EventLoop, the drain
log executes them only on the loop-owning thread, strictly in submission
order, each entry an atomic run-to-completion execution. -/
theorem eventloop_fifo_in_order (l : EventLoop) (cs : List CallId) :
    (l.pushAll cs).owner = l.owner
  ∧ (l.pushAll cs).drain = drainQueue l.owner (l.queue ++ cs)
  ∧ ((l.pushAll cs).drain).map Prod.snd = l.queue ++ cs
  ∧ ((l.pushAll cs).drain).map Prod.fst
      = (l.queue ++ cs).map (fun _ => l.owner) := by
  have h := pushAll_owner_queue cs l
  refine ⟨h.1, ?_, ?_, ?_⟩
  · rw [EventLoop.drain, h.1, h.2]
  · rw [EventLoop.drain, h.1, h.2, drainQueue_map_snd]
  · rw [EventLoop.drain, h.1, h.2, drainQueue_map_fst]

/-- C4: a ScopedSetContext scope saves the ambient context on entry,
installs the new one for the body, and restores the saved value on every
exit path (success or error), for an arbitrary body and hence arbitrary
nesting depth: the ambient context after the scope equals the ambient
context before it, and the body runs starting from the installed
context. -/
theorem scoped_set_context_round_trip (c : ContextRef) (p : CtxProg)
    (st : CtxThread) :
    (runCtx (.scopedSet c p) st).1 = st
  ∧ (runCtx (.scopedSet c p) st).2 = (runCtx p ⟨c⟩).2 := by
  exact ⟨rfl, rfl⟩

/-- C5: a deferred call submitted with from_other_thread and
other_thread_use_fg_context carries only the callable and the flag (no
context value); at execution time the installed context is the foreground
context resolved then, for any execution-time environment, independent of
the submission-time environment; without the flag the installed context is
the explicit empty ContextRef(nullptr). -/
theorem pushcall_fg_context_late_binding (env : PushCallEnv) (call : CallId)
    (sw : Bool) (ex : ExecEnv) :
    PyPushCall env call true sw true false
      = .ok (env.push (.otherThreadCall call true))
  ∧ installedContext ex (.otherThreadCall call true) = ex.foregroundContext
  ∧ PyPushCall env call true sw false false
      = .ok (env.push (.otherThreadCall call false))
  ∧ installedContext ex (.otherThreadCall call false) = ContextRef.empty := by
  exact ⟨rfl, rfl, rfl, rfl⟩

/-- C6: constructing a PythonRef from a null object with the non-soft
behaviors kSteal and kAcquire fails with the invalid-reference error,
while kStealSoft and kAcquireSoft succeed with an unreferenced wrapper
whose Get is null and whose Exists is false, leaving refcounts
untouched. -/
theorem pythonref_null_soft_vs_hard (w : RefWorld) :
    PythonRef.create w none .kSteal = .error invalidReferenceError
  ∧ PythonRef.create w none .kAcquire = .error invalidReferenceError
  ∧ PythonRef.create w none .kStealSoft = .ok (w, ⟨none⟩)
  ∧ PythonRef.create w none .kAcquireSoft = .ok (w, ⟨none⟩)
  ∧ PythonRef.Get ⟨none⟩ = none
  ∧ PythonRef.Exists ⟨none⟩ = false := by
  exact ⟨rfl, rfl, rfl, rfl, rfl, rfl⟩

/-- C7: copy-assignment never steals. After assign, self references
exactly what other references; when other references t, the count of t
becomes w t + 1 minus the release of any reference self previously held to
t (a newly acquired reference, with any distinct old reference of self
released); when other is unreferenced, self releases what it held and
becomes unreferenced, and the world is untouched when self held nothing. -/
theorem pythonref_assign_acquires (w : RefWorld) (self other : PythonRef)
    (hval : ∀ s, self.Get = some s → 1 ≤ w s) :
    ((PythonRef.assign w self other).2.Get = other.Get)
  ∧ (∀ t, other.Get = some t →
      (PythonRef.assign w self other).1 t
        = w t + 1 - (if self.Get = some t then 1 else 0))
  ∧ (∀ t s, other.Get = some t → self.Get = some s → s ≠ t →
      (PythonRef.assign w self other).1 s = w s - 1 ∧ 1 ≤ w s)
  ∧ (other.Get = none →
      (PythonRef.assign w self other).2.Exists = false
    ∧ (∀ s, self.Get = some s →
        (PythonRef.assign w self other).1 s = w s - 1 ∧ 1 ≤ w s)
    ∧ (self.Get = none → (PythonRef.assign w self other).1 = w)) := by
  obtain ⟨so⟩ := self
  obtain ⟨oo⟩ := other
  cases oo with
  | some t0 =>
    cases so with
    | some s0 =>
      rw [assign_eval]
      refine ⟨rfl, ?_, ?_, ?_⟩
      · intro t ht
        simp only [PythonRef.Get, Option.some.injEq] at ht
        subst ht
        simp only [PythonRef.Get, decrCount, incrCount, Option.some.injEq]
        by_cases hst : s0 = t0
        · subst hst; simp
        · have hst2 : ¬ t0 = s0 := fun hh => hst hh.symm
          simp [hst, hst2]
      · intro t s ht hs hst
        simp only [PythonRef.Get, Option.some.injEq] at ht hs
        subst ht; subst hs
        refine ⟨?_, hval s0 rfl⟩
        simp only [decrCount, incrCount]
        simp [hst]
      · intro hnone
        exact absurd hnone (by simp [PythonRef.Get])
    | none =>
      rw [assign_eval]
      refine ⟨rfl, ?_, ?_, ?_⟩
      · intro t ht
        simp only [PythonRef.Get, Option.some.injEq] at ht
        subst ht
        simp [PythonRef.Get, incrCount]
      · intro t s _ hs
        exact absurd hs (by simp [PythonRef.Get])
      · intro hnone
        exact absurd hnone (by simp [PythonRef.Get])
  | none =>
    cases so with
    | some s0 =>
      rw [assign_eval]
      refine ⟨rfl, ?_, ?_, ?_⟩
      · intro t ht
        exact absurd ht (by simp [PythonRef.Get])
      · intro t s ht
        exact absurd ht (by simp [PythonRef.Get])
      · intro _
        refine ⟨rfl, ?_, ?_⟩
        · intro s hs
          simp only [PythonRef.Get, Option.some.injEq] at hs
          subst hs
          refine ⟨?_, hval s0 rfl⟩
          simp [decrCount]
        · intro habs
          exact absurd habs (by simp [PythonRef.Get])
    | none =>
      rw [assign_eval]
      refine ⟨rfl, ?_, ?_, ?_⟩
      · intro t ht
        exact absurd ht (by simp [PythonRef.Get])
      · intro t s ht
        exact absurd ht (by simp [PythonRef.Get])
      · intro _
        refine ⟨rfl, ?_, fun _ => rfl⟩
        intro s hs
        exact absurd hs (by simp [PythonRef.Get])

/-- C7 witness: assigning a wrapper on object 0 from a wrapper on object 1
in a world where every count is 1: self ends up referencing object 1. -/
theorem pythonref_assign_acquires_witness :
    (PythonRef.assign (fun _ => 1) ⟨some 0⟩ ⟨some 1⟩).2.Get = some 1 := by
  have h := pythonref_assign_acquires (fun _ => 1) ⟨some 0⟩ ⟨some 1⟩
    (fun s _ => le_refl 1)
  exact h.1.trans rfl

/-- C8: with the thread and context preconditions passing, a negative
delay makes both apptimer and displaytimer fail with the value-error
"Timer length cannot be < 0." and no timer is produced, while every
non-negative delay produces a timer with no error; the error raised is of
the invalid-argument (value) kind. -/
theorem timer_negative_delay_value_error (env : TimerCallEnv) (length : ℚ)
    (call : CallId) (hthread : env.inLogicThread = true)
    (hctx : EnsureContextAllowsDefaultTimerTypes env = .ok ()) :
    (length < 0 →
        PyAppTimer env length call = .error timerLengthError
      ∧ PyDisplayTimer env length call = .error timerLengthError)
  ∧ (0 ≤ length →
        exceptIsOk (PyAppTimer env length call) = true
      ∧ exceptIsOk (PyDisplayTimer env length call) = true)
  ∧ timerLengthError.pythonType = .kValue := by
  have happ : PyAppTimer env length call
      = (if length < 0 then .error timerLengthError
         else .ok (Logic.NewDisplayTimer (castToMillisecs length) false call)) := by
    simp [PyAppTimer, hthread, hctx]
  have hdisp : PyDisplayTimer env length call
      = (if length < 0 then .error timerLengthError
         else .ok (Logic.NewAppTimer (castToMillisecs length) false call)) := by
    simp [PyDisplayTimer, hthread, hctx]
  refine ⟨?_, ?_, rfl⟩
  · intro hneg
    rw [happ, hdisp, if_pos hneg, if_pos hneg]
    exact ⟨rfl, rfl⟩
  · intro hpos
    have hnot : ¬ length < 0 := not_lt.mpr hpos
    rw [happ, hdisp, if_neg hnot, if_neg hnot]
    exact ⟨rfl, rfl⟩

/-- C8 witness: delay -1 second in a passing environment fails with the
value error on both timer entry points; delay 2 seconds succeeds. -/
theorem timer_negative_delay_value_error_witness :
    (PyAppTimer timerEnvOk (-1) 3 = .error timerLengthError
  ∧ PyDisplayTimer timerEnvOk (-1) 3 = .error timerLengthError)
  ∧ exceptIsOk (PyAppTimer timerEnvOk 2 3) = true := by
  constructor
  · exact (timer_negative_delay_value_error timerEnvOk (-1) 3 rfl rfl).1
      (by norm_num)
  · exact ((timer_negative_delay_value_error timerEnvOk 2 3 rfl rfl).2.1
      (by norm_num)).1

/-- C9: constructing a scripting-side Widget handle (tp_new) from any
thread other than the logic thread fails with the wrong-thread error and
never yields a usable object. -/
theorem widget_tp_new_wrong_thread (ct lt : ThreadId) (h : ct ≠ lt) :
    PythonClassWidget.tp_new ct lt = .error wrongThreadError
  ∧ ∀ r : WeakRefWidget, PythonClassWidget.tp_new ct lt ≠ .ok r := by
  have h1 : PythonClassWidget.tp_new ct lt = .error wrongThreadError := by
    simp [PythonClassWidget.tp_new, h]
  refine ⟨h1, ?_⟩
  intro r hr
  rw [h1] at hr
  exact Except.noConfusion hr

/-- C9 witness: constructing from thread 1 when the logic thread is 0
fails. -/
theorem widget_tp_new_wrong_thread_witness :
    PythonClassWidget.tp_new 1 0 = .error wrongThreadError :=
  (widget_tp_new_wrong_thread 1 0 (by decide)).1

/-- C10: pushcall in default mode (raw false, from_other_thread false)
throws "You must use from_other_thread mode." off the logic thread,
enqueueing nothing (the error result carries no updated queue); on the
logic thread it enqueues a context-capturing call holding the context
ambient at submission. -/
theorem pushcall_default_mode_thread_check (env : PushCallEnv)
    (call : CallId) (sw fg : Bool) :
    (env.currentThreadIsLogic = false →
        PyPushCall env call false sw fg false
          = .error mustUseFromOtherThreadError)
  ∧ (env.currentThreadIsLogic = true →
        PyPushCall env call false sw fg false
          = .ok (env.push (.contextCall call env.currentContext))) := by
  constructor
  · intro h
    simp [PyPushCall, h]
  · intro h
    simp [PyPushCall, h]

/-- C10 witness: pushcall in default mode from a non-logic thread fails
with the from-other-thread error. -/
theorem pushcall_default_mode_thread_check_witness :
    PyPushCall ⟨false, ContextRef.empty, ContextRef.empty, []⟩ 3
      false false false false = .error mustUseFromOtherThreadError :=
  (pushcall_default_mode_thread_check
    ⟨false, ContextRef.empty, ContextRef.empty, []⟩ 3 false false).1 rfl

end Ballistica
